import Mathlib

/-!
Verification of the supergateway transport-bridge engine against its
specification.  The definitions below are a shallow embedding of the
TypeScript sources: pure helpers (path joining, line splitting) become Lean
functions; the event-driven handlers (HTTP route handlers, transport
callbacks, child stdout handlers) become explicit state-transition
functions whose outputs record the writes to the child's stdin, the sends
to the network transport, and the HTTP responses produced.
-/

/-! ## JSON values and JSON-RPC messages -/

/-- A JSON value, used to state the exact error envelopes the gateway
produces.  Object fields are kept in writing order. -/
inductive Json where
  | null : Json
  | bool : Bool → Json
  | num : Int → Json
  | str : String → Json
  | arr : List Json → Json
  | obj : List (String × Json) → Json

/-- A JSON-RPC id is a string or a number (from JSON.parse / the SDK types). -/
inductive RpcId where
  | str : String → RpcId
  | num : Int → RpcId
deriving DecidableEq

/-- A JSON-RPC message as the gateway observes it: an optional id, an
optional method, and the remaining payload (params / result / error),
which the bridge never inspects. -/
structure JsonRpcMessage where
  id : Option RpcId
  method : Option String
  payload : Json

/-- Modelled from the SDK (external dependency, not part of this
repository): isInitializeRequest from the MCP SDK types holds exactly for
messages whose method is "initialize". -/
def isInitializeRequest (m : JsonRpcMessage) : Bool :=
  m.method == some "initialize"

/-- The params object built by createInitializeRequest in
stdioToStatelessStreamableHttp.ts. -/
def initializeParamsJson (protocolVersion version : String) : Json :=
  .obj [("protocolVersion", .str protocolVersion),
        ("capabilities", .obj [("roots", .obj [("listChanged", .bool true)]),
                               ("sampling", .obj [])]),
        ("clientInfo", .obj [("name", .str "supergateway"),
                             ("version", .str version)])]

/-- createInitializeRequest from stdioToStatelessStreamableHttp.ts:
a JSON-RPC request with the given id and method "initialize".  The
version argument models the getVersion() build constant. -/
def createInitializeRequest (id : RpcId) (protocolVersion version : String) :
    JsonRpcMessage :=
  { id := some id, method := some "initialize",
    payload := initializeParamsJson protocolVersion version }

/-- createInitializedNotification from stdioToStatelessStreamableHttp.ts. -/
def createInitializedNotification : JsonRpcMessage :=
  { id := none, method := some "notifications/initialized", payload := .null }

/-- The auto-generated initialize request id
"init_" + Date.now() + "_" + random token, from
stdioToStatelessStreamableHttp.ts (transport.onmessage).  The nowMillis
and rand arguments model the two nondeterministic inputs. -/
def genInitId (nowMillis : Nat) (rand : String) : String :=
  "init_" ++ toString nowMillis ++ "_" ++ rand

/-! ## Path joining (joinPath, identical in stdioToSse.ts, stdioToWs.ts,
stdioToStatefulStreamableHttp.ts and stdioToStatelessStreamableHttp.ts) -/

/-- JavaScript s.startsWith of the one-character string "/": the first
character is a slash. -/
def hasLeadingSlash (s : String) : Bool :=
  s.data.head? == some '/'

/-- The test of the regex of a single trailing slash: the last character
is a slash. -/
def hasTrailingSlash (s : String) : Bool :=
  s.data.getLast? == some '/'

/-- Removal of the last character (the replacement of the matched
trailing slash by the empty string). -/
def dropLastChar (s : String) : String :=
  String.mk s.data.dropLast

/-- joinPath from the sources: the base is "" when it equals "/",
otherwise one trailing "/" is stripped (the regex replace of a single
trailing slash); the suffix gets a leading "/" when missing; an empty
concatenation falls back to "/". -/
def joinPath (base suffix : String) : String :=
  let normalizedBase := if base = "/" then ""
    else if hasTrailingSlash base then dropLastChar base else base
  let normalizedSuffix := if hasLeadingSlash suffix then suffix
    else "/" ++ suffix
  if normalizedBase ++ normalizedSuffix = "" then "/"
  else normalizedBase ++ normalizedSuffix

/-- The specification's normalize: normalize of the root path is the empty
string, otherwise exactly one trailing "/" is stripped. -/
def normalizeSpec (p : String) : String :=
  if p = "/" then "" else if hasTrailingSlash p then dropLastChar p else p

/-- The specification's ensureLeading: prepend "/" when the suffix does
not already start with it. -/
def ensureLeadingSlash (s : String) : String :=
  if hasLeadingSlash s then s else "/" ++ s

/-! ## Line framer (child.stdout data handler, identical algorithm in all
forward gateways): buffer += chunk; split on \r{0,1}\n; the last fragment
becomes the new buffer; earlier fragments are emitted, skipping the ones
that are empty after trimming; each survivor is JSON-parsed. -/

/-- Whitespace as removed by String.prototype.trim for the characters the
framer can actually see on a line. -/
def isWhitespaceChar (c : Char) : Bool :=
  c = ' ' ∨ c = '\t' ∨ c = '\n' ∨ c = '\r' ∨ c = '\x0b' ∨ c = '\x0c'

/-- Prepend a character to the first fragment of a fragment list. -/
def consHead (c : Char) : List (List Char) → List (List Char)
  | [] => [[c]]
  | l :: ls => (c :: l) :: ls

/-- String.prototype.split on the regex of an optional carriage return
followed by a newline, scanning left to right: "\r\n" is one separator,
a lone "\n" is a separator, a lone "\r" is ordinary text.  The result is
always non-empty; the last fragment is the unterminated tail. -/
def splitLines : List Char → List (List Char)
  | [] => [[]]
  | '\n' :: rest => [] :: splitLines rest
  | '\r' :: '\n' :: rest => [] :: splitLines rest
  | '\r' :: c :: rest => consHead '\r' (splitLines (c :: rest))
  | ['\r'] => [['\r']]
  | c :: rest => consHead c (splitLines rest)

/-- The last fragment of a non-empty fragment list ([] for the empty one). -/
def lastFrag : List (List Char) → List Char
  | [] => []
  | [l] => l
  | _ :: l :: ls => lastFrag (l :: ls)

/-- One chunk arriving at the stdout handler: append to the buffer, split,
keep the last fragment as the new buffer, hand the earlier fragments on. -/
def feed (buf chunk : List Char) : List Char × List (List Char) :=
  (lastFrag (splitLines (buf ++ chunk)), (splitLines (buf ++ chunk)).dropLast)

/-- What the framer does with one complete fragment: fragments that are
empty after trimming are skipped; the rest are JSON-parsed (parse models
JSON.parse restricted to this line; parse failures are logged and
dropped). -/
def emitLine {M : Type} (parse : List Char → Option M) (l : List Char) :
    Option M :=
  if l.all isWhitespaceChar then none else parse l

/-- The framer run over a list of chunks, starting from a buffer: returns
the final buffer and the emitted messages in order. -/
def runFramer {M : Type} (parse : List Char → Option M) (buf : List Char) :
    List (List Char) → List Char × List M
  | [] => (buf, [])
  | c :: cs =>
    let r1 := feed buf c
    let r2 := runFramer parse r1.1 cs
    (r2.1, (r1.2.filterMap (emitLine parse)) ++ r2.2)

/-- The byte stream sent by a child that writes each message followed by
its separator: serialize m0 ++ sep0 ++ serialize m1 ++ sep1 ++ ... -/
def encodeStream {M : Type} (serialize : M → List Char) :
    List M → List (List Char) → List Char
  | [], _ => []
  | _, [] => []
  | m :: ms, sep :: seps => serialize m ++ (sep ++ encodeStream serialize ms seps)

/-! ## Stateless Streamable-HTTP adapter: the auto-initialize interposer
(stdioToStatelessStreamableHttp.ts, createPostHandler) -/

/-- The per-POST interposer state of the stateless adapter:
isInitialized, initializeRequestId, isAutoInitializing and
pendingOriginalMessage, exactly the four mutable variables of
createPostHandler. -/
structure InterposerState where
  isInitialized : Bool
  initializeRequestId : Option RpcId
  isAutoInitializing : Bool
  pendingOriginalMessage : Option JsonRpcMessage

/-- The state at the start of a POST. -/
def InterposerState.initial : InterposerState :=
  { isInitialized := false, initializeRequestId := none,
    isAutoInitializing := false, pendingOriginalMessage := none }

/-- JavaScript truthiness of a JSON-RPC id value (null is falsy, the empty
string and the number 0 are falsy). -/
def idTruthy : Option RpcId → Bool
  | none => false
  | some (.str s) => decide (s ≠ "")
  | some (.num n) => decide (n ≠ 0)

/-- An event observed by one stateless POST handler: a message delivered
by the network transport (with the current clock and random token for the
id generator), or a parsed line from the child's stdout. -/
inductive StatelessEvent where
  | fromNetwork (m : JsonRpcMessage) (nowMillis : Nat) (rand : String)
  | fromChild (m : JsonRpcMessage)

/-- One step of the stateless adapter.  For a network message this is
transport.onmessage; for a child message it is the framer callback inside
child.stdout.on, after JSON parsing.  Returns the new state, the messages
written to the child's stdin, and the messages sent to the network
transport, in order. -/
def stepStateless (protocolVersion version : String) (st : InterposerState) :
    StatelessEvent → InterposerState × List JsonRpcMessage × List JsonRpcMessage
  | .fromNetwork m millis rand =>
    if st.isInitialized = false ∧ isInitializeRequest m = false then
      let fid := RpcId.str (genInitId millis rand)
      ({ isInitialized := st.isInitialized, initializeRequestId := some fid,
         isAutoInitializing := true, pendingOriginalMessage := some m },
       [createInitializeRequest fid protocolVersion version], [])
    else if isInitializeRequest m = true ∧ m.id.isSome then
      ({ st with initializeRequestId := m.id, isAutoInitializing := false },
       [m], [])
    else
      (st, [m], [])
  | .fromChild r =>
    if idTruthy st.initializeRequestId = true ∧ r.id = st.initializeRequestId then
      if st.isAutoInitializing then
        ({ isInitialized := true, initializeRequestId := none,
           isAutoInitializing := false, pendingOriginalMessage := none },
         createInitializedNotification :: st.pendingOriginalMessage.toList, [])
      else
        ({ st with isInitialized := true, initializeRequestId := none }, [], [r])
    else
      (st, [], [r])

/-- The stateless adapter run over an event list: final state, all stdin
writes in order, all network sends in order. -/
def runStateless (protocolVersion version : String) (st : InterposerState) :
    List StatelessEvent → InterposerState × List JsonRpcMessage × List JsonRpcMessage
  | [] => (st, [], [])
  | e :: es =>
    let r1 := stepStateless protocolVersion version st e
    let r2 := runStateless protocolVersion version r1.1 es
    (r2.1, r1.2.1 ++ r2.2.1, r1.2.2 ++ r2.2.2)

/-- The event trace of the scenario in the auto-initialize claim: a first
network message, then child messages pre, then the child's reply r to the
auto-generated initialize request, then child messages post. -/
def autoInitTrace (m r : JsonRpcMessage) (nowMillis : Nat) (rand : String)
    (pre post : List JsonRpcMessage) : List StatelessEvent :=
  StatelessEvent.fromNetwork m nowMillis rand ::
    (pre.map StatelessEvent.fromChild ++
      (StatelessEvent.fromChild r :: post.map StatelessEvent.fromChild))

/-! ## Session access counter -/

/-- Modelled from the spec: the SessionAccessCounter library
(src/lib/sessionAccessCounter.ts is imported by the stateful gateway but
its source is not among the provided files).  Per the spec it keeps a
reference count per key and a per-key armed idle timer. -/
structure CounterState where
  counts : List (String × Nat)
  timers : List String

/-- Replace the binding of a key in an association list. -/
def setCount (l : List (String × Nat)) (k : String) (v : Nat) :
    List (String × Nat) :=
  (k, v) :: l.filter (fun p => decide (p.1 ≠ k))

namespace SessionAccessCounter

/-- Modelled from the spec: inc increments the counter for the key (a
missing entry counts as 0) and cancels any armed idle timer for it. -/
def inc (c : CounterState) (key : String) : CounterState :=
  { counts := setCount c.counts key (((c.counts.lookup key).getD 0) + 1),
    timers := c.timers.filter (fun k => decide (k ≠ key)) }

/-- Modelled from the spec: clear cancels the timer and removes the
counter entry; the returned flag records whether onExpire was invoked,
which happens exactly when fire is true. -/
def clear (c : CounterState) (key : String) (fire : Bool) :
    CounterState × Bool :=
  ({ counts := c.counts.filter (fun p => decide (p.1 ≠ key)),
     timers := c.timers.filter (fun k => decide (k ≠ key)) },
   fire)

end SessionAccessCounter

/-! ## Stateful Streamable-HTTP adapter
(stdioToStatefulStreamableHttp.ts, the app.post handler and the
transport.onclose / transport.onerror callbacks) -/

/-- The session-id generator a StreamableHTTPServerTransport is built
with: the stateful adapter passes a function returning randomUUID(), the
stateless adapter passes undefined. -/
inductive SessionIdGen where
  | uuidV4 : SessionIdGen
  | disabled : SessionIdGen
deriving DecidableEq

/-- The per-binding mutable state of the stateful adapter: the transports
table (session-id to transport handle), the optional session access
counter (present iff sessionTimeout is set), a counter for fresh
transport handles, and the number of children spawned so far. -/
structure StatefulState where
  transports : List (String × Nat)
  counter : Option CounterState
  nextTransportId : Nat
  childrenSpawned : Nat

/-- The outcome of the stateful POST handler before the request is handed
to transport.handleRequest. -/
inductive StatefulPostOutcome where
  | reuse (transportId : Nat)
  | createNew (transportId : Nat) (gen : SessionIdGen)
  | badRequest (status : Nat) (body : Json)

/-- The JSON-RPC error envelope of the stateful 400 response. -/
def badRequestJson : Json :=
  .obj [("jsonrpc", .str "2.0"),
        ("error", .obj [("code", .num (-32000)),
                        ("message", .str "Bad Request: No valid session ID provided")]),
        ("id", .null)]

/-- The branch of the stateful POST handler reached when the session
header is absent (or empty, hence falsy): an initialize body creates a
fresh transport with the UUID-v4 generator and spawns a fresh child;
anything else is a 400. -/
def statefulPostNoSession (st : StatefulState) (body : JsonRpcMessage) :
    StatefulState × StatefulPostOutcome :=
  if isInitializeRequest body then
    ({ st with nextTransportId := st.nextTransportId + 1,
               childrenSpawned := st.childrenSpawned + 1 },
     .createNew st.nextTransportId .uuidV4)
  else
    (st, .badRequest 400 badRequestJson)

/-- The stateful POST handler's admission logic
(stdioToStatefulStreamableHttp.ts app.post): a truthy Mcp-Session-Id
header naming a known session reuses its transport and increments the
access count; a falsy header with an initialize body creates; everything
else is the 400 JSON-RPC error and leaves the state untouched. -/
def handleStatefulPost (st : StatefulState) (header : Option String)
    (body : JsonRpcMessage) : StatefulState × StatefulPostOutcome :=
  match header with
  | some sid =>
    if sid = "" then statefulPostNoSession st body
    else
      match st.transports.lookup sid with
      | some tid =>
        ({ st with counter := st.counter.map (fun c => SessionAccessCounter.inc c sid) },
         .reuse tid)
      | none => (st, .badRequest 400 badRequestJson)
  | none => statefulPostNoSession st body

/-- The onsessioninitialized callback the stateful adapter installs on a
freshly created transport: store the transport under the new session id
and increment the session access count for it. -/
def onSessionInitialized (st : StatefulState) (newSessionId : String)
    (tid : Nat) : StatefulState :=
  { st with
    transports := (newSessionId, tid) :: st.transports.filter (fun p => decide (p.1 ≠ newSessionId)),
    counter := st.counter.map (fun c => SessionAccessCounter.inc c newSessionId) }

/-- The transport.onclose and transport.onerror callbacks of the stateful
adapter (their bodies are identical up to the log line): when
transport.sessionId is truthy, clear its access-counter entry without
firing onExpire and delete the session from the table; in every case kill
the child.  Returns the new state, whether onExpire fired, and whether
the child was killed. -/
def onStatefulTransportClosed (st : StatefulState)
    (transportSessionId : Option String) : StatefulState × Bool × Bool :=
  match transportSessionId with
  | some sid =>
    if sid = "" then (st, false, true)
    else
      match st.counter with
      | some c =>
        ({ st with transports := st.transports.filter (fun p => decide (p.1 ≠ sid)),
                   counter := some (SessionAccessCounter.clear c sid false).1 },
         (SessionAccessCounter.clear c sid false).2, true)
      | none =>
        ({ st with transports := st.transports.filter (fun p => decide (p.1 ≠ sid)) },
         false, true)
  | none => (st, false, true)

/-! ## Stateless Streamable-HTTP adapter: route-level behavior
(stdioToStatelessStreamableHttp.ts, the app.post / app.get / app.delete
registrations for a binding's full path) -/

inductive HttpMethod where
  | post : HttpMethod
  | get : HttpMethod
  | delete : HttpMethod
deriving DecidableEq

/-- What a stateless route does before any transport work: the response
it writes directly (status and JSON body), if any, and how many children
and transports it creates. -/
structure RouteEffect where
  status : Option Nat
  body : Option Json
  childrenSpawned : Nat
  transportsCreated : Nat

/-- The JSON-RPC error envelope the stateless GET and DELETE handlers
serialize into the 405 response. -/
def methodNotAllowedJson : Json :=
  .obj [("jsonrpc", .str "2.0"),
        ("error", .obj [("code", .num (-32000)),
                        ("message", .str "Method not allowed.")]),
        ("id", .null)]

/-- The stateless adapter's routes for a binding's streamable-HTTP path:
POST builds one fresh Server, one fresh transport and one fresh child and
delegates the response to transport.handleRequest (status none here);
GET and DELETE answer 405 with the JSON-RPC error and create nothing. -/
def statelessRoute : HttpMethod → RouteEffect
  | .post => { status := none, body := none,
               childrenSpawned := 1, transportsCreated := 1 }
  | .get => { status := some 405, body := some methodNotAllowedJson,
              childrenSpawned := 0, transportsCreated := 0 }
  | .delete => { status := some 405, body := some methodNotAllowedJson,
                 childrenSpawned := 0, transportsCreated := 0 }

/-! ## SSE adapter (stdioToSse.ts) -/

/-- The body of a direct SSE-adapter response: plain text or a JSON
value. -/
inductive SseBody where
  | text : String → SseBody
  | json : Json → SseBody

/-- The outcome of the SSE message-POST handler. -/
inductive SsePostOutcome where
  | missingParam (status : Nat) (body : SseBody)
  | noActiveSession (status : Nat) (body : SseBody)
  | handledByTransport (sessionId : String)

/-- The app.post handler of the SSE adapter's message path: a falsy
sessionId query parameter is a 400; a session found in the table is
handed to its transport's handlePostMessage; an unknown session is a 503
with a plain-text reason. -/
def handleSsePostMessage (sessions : List (String × Nat))
    (sessionId : Option String) : SsePostOutcome :=
  match sessionId with
  | none => .missingParam 400 (.text "Missing sessionId parameter")
  | some sid =>
    if sid = "" then .missingParam 400 (.text "Missing sessionId parameter")
    else
      match sessions.lookup sid with
      | some _ => .handledByTransport sid
      | none =>
        .noActiveSession 503 (.text ("No active SSE connection for session " ++ sid))

/-- A reaction of the bridge process to a child event. -/
inductive BridgeReaction where
  | exitProcess (code : Int)
  | closeTransport
  | logOnly
deriving DecidableEq

/-- The child.on exit handler installed by the SSE adapter for every
binding: process.exit with the child's exit code, or 1 when the code is
null. -/
def onSseChildExit (code : Option Int) (_signal : Option String) :
    BridgeReaction :=
  .exitProcess (code.getD 1)

/-! ## CLI dispatch (index.ts main) -/

/-- One entry of the multi-server config JSON as parsed: the path and
stdio fields when present as strings (none models a missing or
non-string field). -/
structure RawServerEntry where
  path : Option String
  stdio : Option String

/-- A validated server binding, as passed to the gateways
(MultiStdioServerConfig in types.ts). -/
structure ServerBinding where
  path : String
  stdioCmd : String
deriving DecidableEq

/-- The recognized argv fields that determine dispatch in main.
outputTransport is the already-resolved value (including the yargs
default of "sse" for stdio input and "stdio" for sse / streamableHttp
input); sessionTimeout is some t when a number was given. -/
structure Argv where
  stdio : List String
  sse : Option String
  streamableHttp : Option String
  multiServerConfig : Option String
  outputTransport : Option String
  stateful : Bool
  sessionTimeout : Option Int

/-- What main decides to run (process.exit(1) or one of the gateways). -/
inductive MainOutcome where
  | exitError : MainOutcome
  | runStatefulMulti (servers : List ServerBinding) (sessionTimeout : Option Int)
  | runStatelessMulti (servers : List ServerBinding)
  | runSseMulti (servers : List ServerBinding)
  | runWsMulti (servers : List ServerBinding)
  | runSseSingle (stdioCmd : String)
  | runWsSingle (stdioCmd : String)
  | runStatefulSingle (stdioCmd : String) (sessionTimeout : Option Int)
  | runStatelessSingle (stdioCmd : String)
  | runSseToStdio (url : String)
  | runStreamableHttpToStdio (url : String)
deriving DecidableEq

/-- JavaScript truthiness of an optional string. -/
def optTruthy : Option String → Bool
  | none => false
  | some s => decide (s ≠ "")

/-- Validation of one multi-server config entry in main: both fields must
be present, strings and non-empty; the path gets a leading "/" when
missing. -/
def parseConfigEntry (e : RawServerEntry) : Option ServerBinding :=
  let path := e.path.getD ""
  let stdioCmd := e.stdio.getD ""
  if path = "" ∨ stdioCmd = "" then none
  else some { path := if hasLeadingSlash path then path else "/" ++ path,
              stdioCmd := stdioCmd }

/-- Validation of the whole servers array (none means process.exit(1)). -/
def parseConfigServers (es : List RawServerEntry) :
    Option (List ServerBinding) :=
  es.mapM parseConfigEntry

/-- Parsing of one name=command value of the repeated --stdio form: split
at the first "=", trim both parts, both must be non-empty; the name gets
a leading "/" when missing. -/
def parseStdioMapEntry (v : String) : Option ServerBinding :=
  match v.splitOn "=" with
  | [] => none
  | [_] => none
  | name :: rest =>
    let n := name.trim
    let c := (String.intercalate "=" rest).trim
    if n = "" ∨ c = "" then none
    else some { path := if hasLeadingSlash n then n else "/" ++ n,
                stdioCmd := c }

/-- Parsing of all --stdio name=command values. -/
def parseStdioMapServers (vs : List String) : Option (List ServerBinding) :=
  vs.mapM parseStdioMapEntry

/-- The transport dispatch shared by the two multi-server branches of
main: streamableHttp runs the stateful or stateless multi gateway (the
sessionTimeout value is passed through without validation); sse and ws
reject --stateful; anything else is an error. -/
def dispatchMulti (argv : Argv) (servers : List ServerBinding) : MainOutcome :=
  if argv.outputTransport = some "streamableHttp" then
    if argv.stateful then .runStatefulMulti servers argv.sessionTimeout
    else .runStatelessMulti servers
  else if argv.outputTransport = some "sse" then
    if argv.stateful then .exitError else .runSseMulti servers
  else if argv.outputTransport = some "ws" then
    if argv.stateful then .exitError else .runWsMulti servers
  else .exitError

/-- The dispatch logic of main in index.ts.  configServers models the
content of the --multiServerConfig file after reading and JSON parsing
(none when reading or parsing failed or servers is not an array). -/
def mainDispatch (argv : Argv) (configServers : Option (List RawServerEntry)) :
    MainOutcome :=
  let hasStdio := decide (argv.stdio ≠ [])
  let hasSse := optTruthy argv.sse
  let hasStreamableHttp := optTruthy argv.streamableHttp
  let hasMultiServerConfig := optTruthy argv.multiServerConfig
  let activeCount := (if hasStdio then 1 else 0) + (if hasSse then 1 else 0) +
    (if hasStreamableHttp then 1 else 0) + (if hasMultiServerConfig then 1 else 0)
  let isStdioMapCli := hasStdio && argv.stdio.all (fun v => v.data.contains '=')
  if activeCount = 0 then .exitError
  else if activeCount > 1 then .exitError
  else if hasMultiServerConfig then
    match configServers with
    | none => .exitError
    | some raw =>
      match parseConfigServers raw with
      | none => .exitError
      | some servers =>
        if servers = [] then .exitError
        else dispatchMulti argv servers
  else if isStdioMapCli then
    match parseStdioMapServers argv.stdio with
    | none => .exitError
    | some servers => dispatchMulti argv servers
  else if hasStdio then
    match argv.stdio.head? with
    | none => .exitError
    | some stdioArg =>
      if stdioArg = "" then .exitError
      else if argv.outputTransport = some "sse" then .runSseSingle stdioArg
      else if argv.outputTransport = some "ws" then .runWsSingle stdioArg
      else if argv.outputTransport = some "streamableHttp" then
        if argv.stateful then
          match argv.sessionTimeout with
          | some t =>
            if t ≤ 0 then .exitError else .runStatefulSingle stdioArg (some t)
          | none => .runStatefulSingle stdioArg none
        else .runStatelessSingle stdioArg
      else .exitError
  else if hasSse then
    if argv.outputTransport = some "stdio" then .runSseToStdio (argv.sse.getD "")
    else .exitError
  else if hasStreamableHttp then
    if argv.outputTransport = some "stdio" then
      .runStreamableHttpToStdio (argv.streamableHttp.getD "")
    else .exitError
  else .exitError

/-! ## Single-binding entry points as singleton multi-server calls
(stdioToSse.ts, stdioToWs.ts, stdioToStatefulStreamableHttp.ts,
stdioToStatelessStreamableHttp.ts).  Each multi gateway is embedded as
the pure configuration it sets up: the per-binding full paths (via
joinPath, with server.path falling back to "/" when empty) plus the
pass-through settings.  The logger is dropped (pure logging only). -/

def orRootPath (p : String) : String := if p = "" then "/" else p

structure StdioToSseArgs where
  stdioCmd : String
  port : Nat
  baseUrl : String
  ssePath : String
  messagePath : String
  corsOrigin : Option String
  healthEndpoints : List String
  headersList : List (String × String)
deriving DecidableEq

structure MultiStdioToSseArgs where
  servers : List ServerBinding
  port : Nat
  baseUrl : String
  ssePath : String
  messagePath : String
  corsOrigin : Option String
  healthEndpoints : List String
  headersList : List (String × String)
deriving DecidableEq

structure SseBindingConfig where
  fullSsePath : String
  fullMessagePath : String
  messageEndpointUrl : String
  stdioCmd : String
deriving DecidableEq

structure SseAdapterSetup where
  bindings : List SseBindingConfig
  port : Nat
  corsOrigin : Option String
  healthEndpoints : List String
  headersList : List (String × String)
deriving DecidableEq

/-- multiStdioToSse: per server, the SSE path and message path are
joinPath of the server path (or "/") with the configured suffixes, and
the SSE transport is built on baseUrl ++ the full message path. -/
def multiStdioToSse (args : MultiStdioToSseArgs) : SseAdapterSetup :=
  { bindings := args.servers.map (fun s =>
      { fullSsePath := joinPath (orRootPath s.path) args.ssePath,
        fullMessagePath := joinPath (orRootPath s.path) args.messagePath,
        messageEndpointUrl := args.baseUrl ++ joinPath (orRootPath s.path) args.messagePath,
        stdioCmd := s.stdioCmd }),
    port := args.port, corsOrigin := args.corsOrigin,
    healthEndpoints := args.healthEndpoints, headersList := args.headersList }

/-- stdioToSse delegates to multiStdioToSse with the one-element server
list rooted at "/". -/
def stdioToSse (args : StdioToSseArgs) : SseAdapterSetup :=
  multiStdioToSse
    { servers := [{ path := "/", stdioCmd := args.stdioCmd }],
      port := args.port, baseUrl := args.baseUrl, ssePath := args.ssePath,
      messagePath := args.messagePath, corsOrigin := args.corsOrigin,
      healthEndpoints := args.healthEndpoints, headersList := args.headersList }

structure StdioToWsArgs where
  stdioCmd : String
  port : Nat
  messagePath : String
  corsOrigin : Option String
  healthEndpoints : List String
deriving DecidableEq

structure MultiStdioToWsArgs where
  servers : List ServerBinding
  port : Nat
  messagePath : String
  corsOrigin : Option String
  healthEndpoints : List String
deriving DecidableEq

structure WsBindingConfig where
  fullMessagePath : String
  stdioCmd : String
deriving DecidableEq

structure WsAdapterSetup where
  bindings : List WsBindingConfig
  port : Nat
  corsOrigin : Option String
  healthEndpoints : List String
deriving DecidableEq

/-- multiStdioToWs: per server, one WebSocket transport at joinPath of
the server path (or "/") with the message path suffix. -/
def multiStdioToWs (args : MultiStdioToWsArgs) : WsAdapterSetup :=
  { bindings := args.servers.map (fun s =>
      { fullMessagePath := joinPath (orRootPath s.path) args.messagePath,
        stdioCmd := s.stdioCmd }),
    port := args.port, corsOrigin := args.corsOrigin,
    healthEndpoints := args.healthEndpoints }

/-- stdioToWs delegates to multiStdioToWs with the one-element server
list rooted at "/". -/
def stdioToWs (args : StdioToWsArgs) : WsAdapterSetup :=
  multiStdioToWs
    { servers := [{ path := "/", stdioCmd := args.stdioCmd }],
      port := args.port, messagePath := args.messagePath,
      corsOrigin := args.corsOrigin, healthEndpoints := args.healthEndpoints }

structure StdioToStatefulStreamableHttpArgs where
  stdioCmd : String
  port : Nat
  streamableHttpPath : String
  corsOrigin : Option String
  healthEndpoints : List String
  headersList : List (String × String)
  sessionTimeout : Option Int
deriving DecidableEq

structure MultiStdioToStatefulStreamableHttpArgs where
  servers : List ServerBinding
  port : Nat
  streamableHttpPath : String
  corsOrigin : Option String
  healthEndpoints : List String
  headersList : List (String × String)
  sessionTimeout : Option Int
deriving DecidableEq

structure StreamableHttpBindingConfig where
  fullPath : String
  stdioCmd : String
deriving DecidableEq

structure StatefulAdapterSetup where
  bindings : List StreamableHttpBindingConfig
  port : Nat
  corsOrigin : Option String
  healthEndpoints : List String
  headersList : List (String × String)
  sessionTimeout : Option Int
deriving DecidableEq

/-- multiStdioToStatefulStreamableHttp: per server, one endpoint at
joinPath of the server path (or "/") with the streamableHttpPath
suffix. -/
def multiStdioToStatefulStreamableHttp
    (args : MultiStdioToStatefulStreamableHttpArgs) : StatefulAdapterSetup :=
  { bindings := args.servers.map (fun s =>
      { fullPath := joinPath (orRootPath s.path) args.streamableHttpPath,
        stdioCmd := s.stdioCmd }),
    port := args.port, corsOrigin := args.corsOrigin,
    healthEndpoints := args.healthEndpoints, headersList := args.headersList,
    sessionTimeout := args.sessionTimeout }

/-- stdioToStatefulStreamableHttp delegates to the multi gateway with the
one-element server list rooted at "/". -/
def stdioToStatefulStreamableHttp (args : StdioToStatefulStreamableHttpArgs) :
    StatefulAdapterSetup :=
  multiStdioToStatefulStreamableHttp
    { servers := [{ path := "/", stdioCmd := args.stdioCmd }],
      port := args.port, streamableHttpPath := args.streamableHttpPath,
      corsOrigin := args.corsOrigin, healthEndpoints := args.healthEndpoints,
      headersList := args.headersList, sessionTimeout := args.sessionTimeout }

structure StdioToStatelessStreamableHttpArgs where
  stdioCmd : String
  port : Nat
  streamableHttpPath : String
  corsOrigin : Option String
  healthEndpoints : List String
  headersList : List (String × String)
  protocolVersion : String
deriving DecidableEq

structure MultiStdioToStatelessStreamableHttpArgs where
  servers : List ServerBinding
  port : Nat
  streamableHttpPath : String
  corsOrigin : Option String
  healthEndpoints : List String
  headersList : List (String × String)
  protocolVersion : String
deriving DecidableEq

structure StatelessAdapterSetup where
  bindings : List StreamableHttpBindingConfig
  port : Nat
  corsOrigin : Option String
  healthEndpoints : List String
  headersList : List (String × String)
  protocolVersion : String
deriving DecidableEq

/-- multiStdioToStatelessStreamableHttp: per server, one endpoint at
joinPath of the server path (or "/") with the streamableHttpPath
suffix. -/
def multiStdioToStatelessStreamableHttp
    (args : MultiStdioToStatelessStreamableHttpArgs) : StatelessAdapterSetup :=
  { bindings := args.servers.map (fun s =>
      { fullPath := joinPath (orRootPath s.path) args.streamableHttpPath,
        stdioCmd := s.stdioCmd }),
    port := args.port, corsOrigin := args.corsOrigin,
    healthEndpoints := args.healthEndpoints, headersList := args.headersList,
    protocolVersion := args.protocolVersion }

/-- stdioToStatelessStreamableHttp delegates to the multi gateway with
the one-element server list rooted at "/". -/
def stdioToStatelessStreamableHttp
    (args : StdioToStatelessStreamableHttpArgs) : StatelessAdapterSetup :=
  multiStdioToStatelessStreamableHttp
    { servers := [{ path := "/", stdioCmd := args.stdioCmd }],
      port := args.port, streamableHttpPath := args.streamableHttpPath,
      corsOrigin := args.corsOrigin, healthEndpoints := args.healthEndpoints,
      headersList := args.headersList, protocolVersion := args.protocolVersion }

/-! ## Helper lemmas about the line splitter -/

theorem consHead_ne_nil (c : Char) (ls : List (List Char)) : consHead c ls ≠ [] := by
  cases ls <;> simp [consHead]

theorem splitLines_nil_eq : splitLines [] = [[]] := rfl

theorem splitLines_lf (rest : List Char) :
    splitLines ('\n' :: rest) = [] :: splitLines rest := rfl

theorem splitLines_crlf (rest : List Char) :
    splitLines ('\r' :: '\n' :: rest) = [] :: splitLines rest := rfl

theorem splitLines_cr_cons (c : Char) (rest : List Char) (h : c ≠ '\n') :
    splitLines ('\r' :: c :: rest) = consHead '\r' (splitLines (c :: rest)) := by
  rw [splitLines]
  exact fun hc => h hc

theorem splitLines_cr_only : splitLines ['\r'] = [['\r']] := rfl

theorem splitLines_cons (c : Char) (rest : List Char) (h1 : c ≠ '\n') (h2 : c ≠ '\r') :
    splitLines (c :: rest) = consHead c (splitLines rest) := by
  rw [splitLines]
  · exact fun hc => h1 hc
  · exact fun _ hc _ => h2 hc
  · exact fun _ _ hc _ => h2 hc
  · exact fun hc _ => h2 hc

theorem splitLines_ne_nil (s : List Char) : splitLines s ≠ [] := by
  induction s using splitLines.induct with
  | case1 => simp [splitLines_nil_eq]
  | case2 rest ih => simp [splitLines_lf]
  | case3 rest ih => simp [splitLines_crlf]
  | case4 c rest h ih =>
    rw [splitLines_cr_cons c rest (fun hc => h hc)]
    exact consHead_ne_nil _ _
  | case5 => simp [splitLines_cr_only]
  | case6 c rest h1 h2 h3 h4 ih =>
    have hc1 : c ≠ '\n' := fun hc => h1 hc
    have hc2 : c ≠ '\r' := by
      intro hc
      cases rest with
      | nil => exact h4 hc rfl
      | cons a as => exact h3 a as hc rfl
    rw [splitLines_cons c rest hc1 hc2]
    exact consHead_ne_nil _ _

theorem splitLines_eq_singleton (s x : List Char) (h : splitLines s = [x]) :
    x = s := by
  induction s using splitLines.induct generalizing x with
  | case1 =>
    rw [splitLines_nil_eq] at h
    simpa using h.symm
  | case2 rest ih =>
    rw [splitLines_lf] at h
    exact absurd (List.cons_eq_cons.mp h).2 (splitLines_ne_nil rest)
  | case3 rest ih =>
    rw [splitLines_crlf] at h
    exact absurd (List.cons_eq_cons.mp h).2 (splitLines_ne_nil rest)
  | case4 c rest hne ih =>
    rw [splitLines_cr_cons c rest (fun hc => hne hc)] at h
    cases hY : splitLines (c :: rest) with
    | nil => exact absurd hY (splitLines_ne_nil _)
    | cons y ys =>
      rw [hY] at h
      simp only [consHead] at h
      obtain ⟨hx, hys⟩ := List.cons_eq_cons.mp h
      subst hys
      have := ih y (by rw [hY])
      subst this
      simpa using hx.symm
  | case5 =>
    rw [splitLines_cr_only] at h
    simpa using h.symm
  | case6 c rest h1 h2 h3 h4 ih =>
    have hc1 : c ≠ '\n' := fun hc => h1 hc
    have hc2 : c ≠ '\r' := by
      intro hc
      cases rest with
      | nil => exact h4 hc rfl
      | cons a as => exact h3 a as hc rfl
    rw [splitLines_cons c rest hc1 hc2] at h
    cases hY : splitLines rest with
    | nil => exact absurd hY (splitLines_ne_nil _)
    | cons y ys =>
      rw [hY] at h
      simp only [consHead] at h
      obtain ⟨hx, hys⟩ := List.cons_eq_cons.mp h
      subst hys
      have := ih y (by rw [hY])
      subst this
      simpa using hx.symm

theorem lastFrag_cons_of_ne_nil (a : List Char) (ls : List (List Char))
    (h : ls ≠ []) : lastFrag (a :: ls) = lastFrag ls := by
  cases ls with
  | nil => exact absurd rfl h
  | cons b bs => rfl

theorem dropLast_cons_of_ne_nil (a : List Char) (ls : List (List Char))
    (h : ls ≠ []) : (a :: ls).dropLast = a :: ls.dropLast := by
  cases ls with
  | nil => exact absurd rfl h
  | cons b bs => rfl

theorem lastFrag_append_of_ne_nil (s t : List (List Char)) (h : t ≠ []) :
    lastFrag (s ++ t) = lastFrag t := by
  induction s with
  | nil => rfl
  | cons a as ih =>
    rw [List.cons_append, lastFrag_cons_of_ne_nil a (as ++ t) (by simp [h]),
      ih]

theorem dropLast_append_of_ne_nil (s t : List (List Char)) (h : t ≠ []) :
    (s ++ t).dropLast = s ++ t.dropLast := by
  induction s with
  | nil => rfl
  | cons a as ih =>
    rw [List.cons_append, dropLast_cons_of_ne_nil a (as ++ t) (by simp [h]),
      ih, List.cons_append]

theorem consHead_cons (c : Char) (l : List Char) (ls : List (List Char)) :
    consHead c (l :: ls) = (c :: l) :: ls := rfl

theorem splitLines_append (s b : List Char) :
    splitLines (s ++ b) =
      (splitLines s).dropLast ++ splitLines (lastFrag (splitLines s) ++ b) := by
  induction s using splitLines.induct with
  | case1 => simp [splitLines_nil_eq, lastFrag]
  | case2 rest ih =>
    have hne := splitLines_ne_nil rest
    rw [List.cons_append, splitLines_lf, ih, splitLines_lf,
      dropLast_cons_of_ne_nil _ _ hne, lastFrag_cons_of_ne_nil _ _ hne,
      List.cons_append]
  | case3 rest ih =>
    have hne := splitLines_ne_nil rest
    rw [List.cons_append, List.cons_append, splitLines_crlf, ih, splitLines_crlf,
      dropLast_cons_of_ne_nil _ _ hne, lastFrag_cons_of_ne_nil _ _ hne,
      List.cons_append]
  | case4 c rest h ih =>
    have hc : c ≠ '\n' := fun hc => h hc
    simp only [List.cons_append]
    rw [splitLines_cr_cons c (rest ++ b) hc, ← List.cons_append, ih,
      splitLines_cr_cons c rest hc]
    cases hY : splitLines (c :: rest) with
    | nil => exact absurd hY (splitLines_ne_nil _)
    | cons y ys =>
      cases ys with
      | nil =>
        have hy : y = c :: rest := splitLines_eq_singleton _ _ hY
        subst hy
        simp only [consHead_cons, lastFrag, List.dropLast, List.nil_append]
        simp only [List.cons_append]
        rw [splitLines_cr_cons c (rest ++ b) hc]
      | cons y2 ys2 =>
        rw [dropLast_cons_of_ne_nil y (y2 :: ys2) (by simp),
          lastFrag_cons_of_ne_nil y (y2 :: ys2) (by simp), consHead_cons,
          dropLast_cons_of_ne_nil _ (y2 :: ys2) (by simp),
          lastFrag_cons_of_ne_nil _ (y2 :: ys2) (by simp)]
        simp only [List.cons_append, consHead_cons]
  | case5 =>
    simp [splitLines_cr_only, lastFrag, List.dropLast]
  | case6 c rest h1 h2 h3 h4 ih =>
    have hc1 : c ≠ '\n' := fun hc => h1 hc
    have hc2 : c ≠ '\r' := by
      intro hc
      cases rest with
      | nil => exact h4 hc rfl
      | cons a as => exact h3 a as hc rfl
    simp only [List.cons_append]
    rw [splitLines_cons c (rest ++ b) hc1 hc2, ih, splitLines_cons c rest hc1 hc2]
    cases hY : splitLines rest with
    | nil => exact absurd hY (splitLines_ne_nil _)
    | cons y ys =>
      cases ys with
      | nil =>
        simp only [consHead_cons, lastFrag, List.dropLast, List.nil_append]
        simp only [List.cons_append]
        rw [splitLines_cons c (y ++ b) hc1 hc2]
      | cons y2 ys2 =>
        rw [dropLast_cons_of_ne_nil y (y2 :: ys2) (by simp),
          lastFrag_cons_of_ne_nil y (y2 :: ys2) (by simp), consHead_cons,
          dropLast_cons_of_ne_nil _ (y2 :: ys2) (by simp),
          lastFrag_cons_of_ne_nil _ (y2 :: ys2) (by simp)]
        simp only [List.cons_append, consHead_cons]

theorem splitLines_of_no_lf (s : List Char) (h : '\n' ∉ s) :
    splitLines s = [s] := by
  induction s using splitLines.induct with
  | case1 => rfl
  | case2 rest ih => exact absurd (List.mem_cons_self _ _) h
  | case3 rest ih => exact absurd (List.mem_cons_of_mem _ (List.mem_cons_self _ _)) h
  | case4 c rest hne ih =>
    have h2 : '\n' ∉ c :: rest := fun hm => h (List.mem_cons_of_mem _ hm)
    rw [splitLines_cr_cons c rest (fun hc => hne hc), ih h2, consHead_cons]
  | case5 => rfl
  | case6 c rest h1 h2 h3 h4 ih =>
    have hc1 : c ≠ '\n' := fun hc => h1 hc
    have hc2 : c ≠ '\r' := by
      intro hc
      cases rest with
      | nil => exact h4 hc rfl
      | cons a as => exact h3 a as hc rfl
    have hrest : '\n' ∉ rest := fun hm => h (List.mem_cons_of_mem _ hm)
    rw [splitLines_cons c rest hc1 hc2, ih hrest, consHead_cons]

theorem no_lf_lastFrag_splitLines (s : List Char) :
    '\n' ∉ lastFrag (splitLines s) := by
  induction s using splitLines.induct with
  | case1 => simp [splitLines_nil_eq, lastFrag]
  | case2 rest ih =>
    rw [splitLines_lf, lastFrag_cons_of_ne_nil _ _ (splitLines_ne_nil rest)]
    exact ih
  | case3 rest ih =>
    rw [splitLines_crlf, lastFrag_cons_of_ne_nil _ _ (splitLines_ne_nil rest)]
    exact ih
  | case4 c rest hne ih =>
    rw [splitLines_cr_cons c rest (fun hc => hne hc)]
    cases hY : splitLines (c :: rest) with
    | nil => exact absurd hY (splitLines_ne_nil _)
    | cons y ys =>
      cases ys with
      | nil =>
        rw [consHead_cons]
        rw [hY] at ih
        simp only [lastFrag] at ih ⊢
        simp [ih]
      | cons y2 ys2 =>
        rw [consHead_cons, lastFrag_cons_of_ne_nil _ (y2 :: ys2) (by simp),
          ← lastFrag_cons_of_ne_nil y (y2 :: ys2) (by simp), ← hY]
        exact ih
  | case5 => simp [splitLines_cr_only, lastFrag]
  | case6 c rest h1 h2 h3 h4 ih =>
    have hc1 : c ≠ '\n' := fun hc => h1 hc
    have hc2 : c ≠ '\r' := by
      intro hc
      cases rest with
      | nil => exact h4 hc rfl
      | cons a as => exact h3 a as hc rfl
    rw [splitLines_cons c rest hc1 hc2]
    cases hY : splitLines rest with
    | nil => exact absurd hY (splitLines_ne_nil _)
    | cons y ys =>
      cases ys with
      | nil =>
        rw [consHead_cons]
        rw [hY] at ih
        simp only [lastFrag] at ih ⊢
        simp [ih, Ne.symm hc1]
      | cons y2 ys2 =>
        rw [consHead_cons, lastFrag_cons_of_ne_nil _ (y2 :: ys2) (by simp),
          ← lastFrag_cons_of_ne_nil y (y2 :: ys2) (by simp), ← hY]
        exact ih

theorem runFramer_join {M : Type} (parse : List Char → Option M)
    (chunks : List (List Char)) (buf : List Char) (hbuf : '\n' ∉ buf) :
    runFramer parse buf chunks =
      (lastFrag (splitLines (buf ++ chunks.flatten)),
       ((splitLines (buf ++ chunks.flatten)).dropLast).filterMap (emitLine parse)) := by
  induction chunks generalizing buf with
  | nil =>
    rw [List.flatten_nil, List.append_nil, splitLines_of_no_lf buf hbuf]
    simp [runFramer, lastFrag, List.dropLast]
  | cons c cs ih =>
    rw [List.flatten_cons, ← List.append_assoc,
      splitLines_append (buf ++ c) cs.flatten]
    have hb1 : '\n' ∉ lastFrag (splitLines (buf ++ c)) :=
      no_lf_lastFrag_splitLines (buf ++ c)
    rw [lastFrag_append_of_ne_nil _ _ (splitLines_ne_nil _),
      dropLast_append_of_ne_nil _ _ (splitLines_ne_nil _),
      List.filterMap_append]
    simp only [runFramer, feed]
    rw [ih _ hb1]

theorem splitLines_line_sep (w : List Char)
    (hw : ∀ c ∈ w, c ≠ '\n' ∧ c ≠ '\r') (sep : List Char)
    (hsep : sep = ['\n'] ∨ sep = ['\r', '\n']) (t : List Char) :
    splitLines (w ++ (sep ++ t)) = w :: splitLines t := by
  induction w with
  | nil =>
    rcases hsep with h | h <;> subst h
    · simpa using splitLines_lf t
    · simpa using splitLines_crlf t
  | cons a w' ih =>
    obtain ⟨ha1, ha2⟩ := hw a (List.mem_cons_self _ _)
    have hw' : ∀ c ∈ w', c ≠ '\n' ∧ c ≠ '\r' :=
      fun c hc => hw c (List.mem_cons_of_mem _ hc)
    rw [List.cons_append, splitLines_cons a _ ha1 ha2, ih hw', consHead_cons]

theorem splitLines_encodeStream {M : Type} (serialize : M → List Char)
    (ms : List M) (seps : List (List Char)) (hlen : ms.length = seps.length)
    (hsep : ∀ s ∈ seps, s = ['\n'] ∨ s = ['\r', '\n'])
    (hser : ∀ m ∈ ms, ∀ c ∈ serialize m, c ≠ '\n' ∧ c ≠ '\r') (t : List Char) :
    splitLines (encodeStream serialize ms seps ++ t) =
      ms.map serialize ++ splitLines t := by
  induction ms generalizing seps with
  | nil => simp [encodeStream]
  | cons m ms' ih =>
    cases seps with
    | nil => exact absurd hlen (by simp)
    | cons sep seps' =>
      rw [encodeStream, List.append_assoc, List.append_assoc,
        splitLines_line_sep (serialize m) (hser m (List.mem_cons_self _ _)) sep
          (hsep sep (List.mem_cons_self _ _)) _,
        ih seps' (by simpa using hlen)
          (fun s hs => hsep s (List.mem_cons_of_mem _ hs))
          (fun x hx => hser x (List.mem_cons_of_mem _ hx)),
        List.map_cons, List.cons_append]

theorem filterMap_emitLine_serialize {M : Type} (parse : List Char → Option M)
    (serialize : M → List Char) (ms : List M)
    (htrim : ∀ m ∈ ms, (serialize m).all isWhitespaceChar = false)
    (hparse : ∀ m ∈ ms, parse (serialize m) = some m) :
    (ms.map serialize).filterMap (emitLine parse) = ms := by
  induction ms with
  | nil => rfl
  | cons m ms' ih =>
    rw [List.map_cons, List.filterMap_cons]
    have h1 : emitLine parse (serialize m) = some m := by
      rw [emitLine, if_neg (by simp [htrim m (List.mem_cons_self _ _)]),
        hparse m (List.mem_cons_self _ _)]
    rw [h1, ih (fun x hx => htrim x (List.mem_cons_of_mem _ hx))
      (fun x hx => hparse x (List.mem_cons_of_mem _ hx))]

/-- C4: line-framer round trip.  For every finite message list, every
choice of separators among "\n" and "\r\n", and every chunking of the
stream obtained by concatenating serialize(m:i) ++ sep:i followed by an
unterminated trailing fragment, running the framer from an empty buffer
emits exactly the parsed messages in order and leaves the trailing
fragment in the buffer; and a fragment that is empty after trimming
(second chunk list) is ignored, emitting nothing. -/
theorem lineFramerRoundTrip {M : Type} (parse : List Char → Option M)
    (serialize : M → List Char) (ms : List M) (seps : List (List Char))
    (chunks : List (List Char)) (tailBuf : List Char)
    (blank : List Char) (chunks2 : List (List Char))
    (hlen : ms.length = seps.length)
    (hsep : ∀ s ∈ seps, s = ['\n'] ∨ s = ['\r', '\n'])
    (hser : ∀ m ∈ ms, ∀ c ∈ serialize m, c ≠ '\n' ∧ c ≠ '\r')
    (htrim : ∀ m ∈ ms, (serialize m).all isWhitespaceChar = false)
    (hparse : ∀ m ∈ ms, parse (serialize m) = some m)
    (hjoin : chunks.flatten = encodeStream serialize ms seps ++ tailBuf)
    (htail : '\n' ∉ tailBuf)
    (hblank1 : blank.all isWhitespaceChar = true)
    (hblank2 : ∀ c ∈ blank, c ≠ '\n' ∧ c ≠ '\r')
    (hjoin2 : chunks2.flatten = blank ++ ['\n']) :
    runFramer parse [] chunks = (tailBuf, ms) ∧
      runFramer parse [] chunks2 = ([], []) := by
  constructor
  · rw [runFramer_join parse chunks [] (by simp), List.nil_append, hjoin,
      splitLines_encodeStream serialize ms seps hlen hsep hser tailBuf,
      splitLines_of_no_lf tailBuf htail,
      lastFrag_append_of_ne_nil _ [tailBuf] (by simp),
      dropLast_append_of_ne_nil _ [tailBuf] (by simp)]
    simp only [lastFrag, List.dropLast, List.append_nil]
    rw [filterMap_emitLine_serialize parse serialize ms htrim hparse]
  · rw [runFramer_join parse chunks2 [] (by simp), List.nil_append, hjoin2,
      ← List.append_nil ['\n'],
      splitLines_line_sep blank hblank2 ['\n'] (Or.inl rfl) []]
    rw [splitLines_nil_eq]
    simp only [lastFrag, List.dropLast, List.filterMap_cons]
    rw [emitLine, if_pos hblank1]
    simp

/-- Witness for C4 at a concrete instance: messages "a" and "b",
separators "\n" and "\r\n", a chunking that splits inside the "\r\n"
separator, trailing fragment "x", and a blank line " \n". -/
theorem lineFramerRoundTrip_witness :
    runFramer (fun l => some l) []
        [['a', '\n', 'b', '\r'], ['\n', 'x']] = (['x'], [['a'], ['b']]) ∧
      runFramer (fun l => some l) [] [[' ', '\n']] = ([], []) := by
  exact lineFramerRoundTrip (fun l => some l) (fun l => l) [['a'], ['b']]
    [['\n'], ['\r', '\n']] [['a', '\n', 'b', '\r'], ['\n', 'x']] ['x']
    [' '] [[' ', '\n']] (by decide) (by decide) (by decide) (by decide)
    (by decide) (by decide) (by decide) (by decide) (by decide) (by decide)

/-- C5: path composition.  For every base prefix P and suffix S, joinPath
equals the specification's formula: normalize(P) concatenated with
ensureLeading(S), where normalize of the root is the empty string and
otherwise exactly one trailing slash is stripped, ensureLeading prepends
a slash when missing, and an empty concatenation falls back to the root
path. -/
theorem joinPathSpecEquation (P S : String) :
    joinPath P S =
      (if normalizeSpec P ++ ensureLeadingSlash S = "" then "/"
       else normalizeSpec P ++ ensureLeadingSlash S) := rfl

/-- C6: in the stateless adapter every GET and every DELETE on a
binding's streamable-HTTP path is answered with status 405 and the exact
JSON-RPC error envelope with code -32000, message "Method not allowed."
and null id, and neither a child process nor a transport is created. -/
theorem statelessGetDeleteRejected :
    statelessRoute .get =
      { status := some 405,
        body := some (.obj [("jsonrpc", .str "2.0"),
          ("error", .obj [("code", .num (-32000)),
                          ("message", .str "Method not allowed.")]),
          ("id", .null)]),
        childrenSpawned := 0, transportsCreated := 0 } ∧
    statelessRoute .delete =
      { status := some 405,
        body := some (.obj [("jsonrpc", .str "2.0"),
          ("error", .obj [("code", .num (-32000)),
                          ("message", .str "Method not allowed.")]),
          ("id", .null)]),
        childrenSpawned := 0, transportsCreated := 0 } :=
  ⟨rfl, rfl⟩

/-- C7: in SSE mode a child exit terminates the whole bridge process,
with the child's exit code when it is non-null and with exit code 1 when
it is null, for every signal value. -/
theorem sseChildExitTerminatesProcess (c : Int) (sig : Option String) :
    onSseChildExit (some c) sig = .exitProcess c ∧
      onSseChildExit none sig = .exitProcess 1 :=
  ⟨rfl, rfl⟩

/-- C9: an SSE message POST whose (non-empty) sessionId names no active
session in the binding's session table is answered 503 with a plain-text
reason, never a JSON-RPC envelope (the SseBody.text constructor). -/
theorem ssePostUnknownSession503 (sessions : List (String × Nat))
    (sid : String) (hsid : sid ≠ "")
    (habsent : sessions.lookup sid = none) :
    handleSsePostMessage sessions (some sid) =
      .noActiveSession 503
        (.text ("No active SSE connection for session " ++ sid)) := by
  simp [handleSsePostMessage, hsid, habsent]

/-- Witness for C9: session "s2" is absent from a table holding only
"s1". -/
theorem ssePostUnknownSession503_witness :
    handleSsePostMessage [("s1", 0)] (some "s2") =
      .noActiveSession 503
        (.text ("No active SSE connection for session " ++ "s2")) :=
  ssePostUnknownSession503 [("s1", 0)] "s2" (by decide) (by decide)

/-- C10: each single-binding entry point is the corresponding
multi-server entry point applied to the one-element server list rooted at
path "/", for all argument records of all four adapters. -/
theorem singleEqualsMultiSingleton (a : StdioToSseArgs) (b : StdioToWsArgs)
    (c : StdioToStatefulStreamableHttpArgs)
    (d : StdioToStatelessStreamableHttpArgs) :
    stdioToSse a = multiStdioToSse
      { servers := [{ path := "/", stdioCmd := a.stdioCmd }],
        port := a.port, baseUrl := a.baseUrl, ssePath := a.ssePath,
        messagePath := a.messagePath, corsOrigin := a.corsOrigin,
        healthEndpoints := a.healthEndpoints, headersList := a.headersList } ∧
    stdioToWs b = multiStdioToWs
      { servers := [{ path := "/", stdioCmd := b.stdioCmd }],
        port := b.port, messagePath := b.messagePath,
        corsOrigin := b.corsOrigin, healthEndpoints := b.healthEndpoints } ∧
    stdioToStatefulStreamableHttp c = multiStdioToStatefulStreamableHttp
      { servers := [{ path := "/", stdioCmd := c.stdioCmd }],
        port := c.port, streamableHttpPath := c.streamableHttpPath,
        corsOrigin := c.corsOrigin, healthEndpoints := c.healthEndpoints,
        headersList := c.headersList, sessionTimeout := c.sessionTimeout } ∧
    stdioToStatelessStreamableHttp d = multiStdioToStatelessStreamableHttp
      { servers := [{ path := "/", stdioCmd := d.stdioCmd }],
        port := d.port, streamableHttpPath := d.streamableHttpPath,
        corsOrigin := d.corsOrigin, healthEndpoints := d.healthEndpoints,
        headersList := d.headersList, protocolVersion := d.protocolVersion } :=
  ⟨rfl, rfl, rfl, rfl⟩

/-! ## Helper lemmas for the stateless interposer -/

theorem isPrefixOf_self_append (l t : List Char) : l.isPrefixOf (l ++ t) = true := by
  induction l with
  | nil => simp [List.isPrefixOf]
  | cons a as ih => simp [List.isPrefixOf, ih]

theorem genInitId_data (n : Nat) (rand : String) :
    (genInitId n rand).data =
      "init_".data ++ ((toString n).data ++ ("_".data ++ rand.data)) := by
  simp [genInitId, String.data_append, List.append_assoc]

theorem initPrefixOf_genInitId (n : Nat) (rand : String) :
    "init_".data.isPrefixOf (genInitId n rand).data = true := by
  rw [genInitId_data]
  exact isPrefixOf_self_append _ _

theorem genInitId_ne_empty (n : Nat) (rand : String) : genInitId n rand ≠ "" := by
  intro h
  have hlen := congrArg String.length h
  rw [genInitId] at hlen
  simp only [String.length_append] at hlen
  have h5 : ("init_" : String).length = 5 := rfl
  have h1 : ("_" : String).length = 1 := rfl
  have h0 : ("" : String).length = 0 := rfl
  rw [h5, h1, h0] at hlen
  omega

theorem idTruthy_genInitId (n : Nat) (rand : String) :
    idTruthy (some (.str (genInitId n rand))) = true := by
  simp [idTruthy, genInitId_ne_empty n rand]

theorem runStateless_append (pv v : String) (st : InterposerState)
    (es1 es2 : List StatelessEvent) :
    runStateless pv v st (es1 ++ es2) =
      ((runStateless pv v (runStateless pv v st es1).1 es2).1,
       (runStateless pv v st es1).2.1 ++
         (runStateless pv v (runStateless pv v st es1).1 es2).2.1,
       (runStateless pv v st es1).2.2 ++
         (runStateless pv v (runStateless pv v st es1).1 es2).2.2) := by
  induction es1 generalizing st with
  | nil => simp [runStateless]
  | cons e es ih =>
    simp only [List.cons_append, runStateless, List.append_eq]
    rw [ih]
    simp [List.append_assoc]

theorem runStateless_forward (pv v : String) (st : InterposerState)
    (hid : st.initializeRequestId = none) (ms : List JsonRpcMessage) :
    runStateless pv v st (ms.map .fromChild) = (st, [], ms) := by
  induction ms with
  | nil => rfl
  | cons r rs ih =>
    have hcond : ¬(idTruthy st.initializeRequestId = true ∧
        r.id = st.initializeRequestId) := by
      rw [hid]
      simp [idTruthy]
    have hstep : stepStateless pv v st (.fromChild r) = (st, [], [r]) := by
      simp only [stepStateless]
      rw [if_neg hcond]
    simp only [List.map_cons, runStateless]
    rw [hstep, ih]
    simp

theorem runStateless_skip (pv v : String) (st : InterposerState) (fid : RpcId)
    (hid : st.initializeRequestId = some fid) (ms : List JsonRpcMessage)
    (hms : ∀ x ∈ ms, x.id ≠ some fid) :
    runStateless pv v st (ms.map .fromChild) = (st, [], ms) := by
  induction ms with
  | nil => rfl
  | cons r rs ih =>
    have hcond : ¬(idTruthy st.initializeRequestId = true ∧
        r.id = st.initializeRequestId) := by
      rw [hid]
      rintro ⟨-, h2⟩
      exact hms r (List.mem_cons_self _ _) h2
    have hstep : stepStateless pv v st (.fromChild r) = (st, [], [r]) := by
      simp only [stepStateless]
      rw [if_neg hcond]
    simp only [List.map_cons, runStateless]
    rw [hstep, ih (fun x hx => hms x (List.mem_cons_of_mem _ hx))]
    simp

/-- C1: stateless auto-initialize interposition.  For a POST whose first
client-to-server message m is not an initialize request, and for any
child-output trace consisting of messages pre that do not carry the
auto-generated id, then the child's reply r to the auto-generated
initialize request, then messages post, the child's stdin receives
exactly the auto-generated initialize request (whose id has the "init_"
prefix), the notifications/initialized notification, and m, in that order
with nothing in between; r is suppressed, while every other child message
(pre and post) is forwarded to the network in order. -/
theorem statelessAutoInitSequence (pv ver : String) (m r : JsonRpcMessage)
    (nowMillis : Nat) (rand : String) (pre post : List JsonRpcMessage)
    (hm : isInitializeRequest m = false)
    (hr : r.id = some (RpcId.str (genInitId nowMillis rand)))
    (hpre : ∀ x ∈ pre, x.id ≠ some (RpcId.str (genInitId nowMillis rand))) :
    (runStateless pv ver InterposerState.initial
        (autoInitTrace m r nowMillis rand pre post)).2.1 =
      [createInitializeRequest (RpcId.str (genInitId nowMillis rand)) pv ver,
       createInitializedNotification, m] ∧
    "init_".data.isPrefixOf (genInitId nowMillis rand).data = true ∧
    (runStateless pv ver InterposerState.initial
        (autoInitTrace m r nowMillis rand pre post)).2.2 = pre ++ post := by
  have hstep1 : stepStateless pv ver InterposerState.initial
      (.fromNetwork m nowMillis rand) =
      ({ isInitialized := false,
         initializeRequestId := some (RpcId.str (genInitId nowMillis rand)),
         isAutoInitializing := true, pendingOriginalMessage := some m },
       [createInitializeRequest (RpcId.str (genInitId nowMillis rand)) pv ver],
       []) := by
    simp [stepStateless, InterposerState.initial, hm]
  have hstepr : stepStateless pv ver
      { isInitialized := false,
        initializeRequestId := some (RpcId.str (genInitId nowMillis rand)),
        isAutoInitializing := true, pendingOriginalMessage := some m }
      (.fromChild r) =
      ({ isInitialized := true, initializeRequestId := none,
         isAutoInitializing := false, pendingOriginalMessage := none },
       [createInitializedNotification, m], []) := by
    simp only [stepStateless]
    rw [if_pos ⟨idTruthy_genInitId nowMillis rand, hr⟩]
    simp [Option.toList]
  have hskip : runStateless pv ver
      { isInitialized := false,
        initializeRequestId := some (RpcId.str (genInitId nowMillis rand)),
        isAutoInitializing := true, pendingOriginalMessage := some m }
      (pre.map .fromChild) =
      ({ isInitialized := false,
         initializeRequestId := some (RpcId.str (genInitId nowMillis rand)),
         isAutoInitializing := true, pendingOriginalMessage := some m },
       [], pre) :=
    runStateless_skip pv ver _ _ rfl pre hpre
  have hfwd : runStateless pv ver
      { isInitialized := true, initializeRequestId := none,
        isAutoInitializing := false, pendingOriginalMessage := none }
      (post.map .fromChild) =
      ({ isInitialized := true, initializeRequestId := none,
         isAutoInitializing := false, pendingOriginalMessage := none },
       [], post) :=
    runStateless_forward pv ver _ rfl post
  have hrun : runStateless pv ver InterposerState.initial
      (autoInitTrace m r nowMillis rand pre post) =
      ({ isInitialized := true, initializeRequestId := none,
         isAutoInitializing := false, pendingOriginalMessage := none },
       [createInitializeRequest (RpcId.str (genInitId nowMillis rand)) pv ver,
        createInitializedNotification, m],
       pre ++ post) := by
    rw [autoInitTrace]
    simp only [runStateless]
    rw [hstep1]
    rw [runStateless_append pv ver _ (pre.map .fromChild)
      (StatelessEvent.fromChild r :: post.map .fromChild), hskip]
    simp only [runStateless]
    rw [hstepr, hfwd]
    simp
  exact ⟨by rw [hrun], initPrefixOf_genInitId nowMillis rand, by rw [hrun]⟩

/-- Witness for C1: protocol version 2024-11-05, a tools/list first
message, clock 1700 and random token "abc", no other child messages. -/
theorem statelessAutoInitSequence_witness :
    (runStateless "2024-11-05" "1.0.0" InterposerState.initial
        (autoInitTrace
          { id := some (.num 1), method := some "tools/list", payload := .null }
          { id := some (.str "init_1700_abc"), method := none, payload := .null }
          1700 "abc" [] [])).2.1 =
      [createInitializeRequest (RpcId.str (genInitId 1700 "abc"))
        "2024-11-05" "1.0.0",
       createInitializedNotification,
       { id := some (.num 1), method := some "tools/list", payload := .null }] ∧
    "init_".data.isPrefixOf (genInitId 1700 "abc").data = true ∧
    (runStateless "2024-11-05" "1.0.0" InterposerState.initial
        (autoInitTrace
          { id := some (.num 1), method := some "tools/list", payload := .null }
          { id := some (.str "init_1700_abc"), method := none, payload := .null }
          1700 "abc" [] [])).2.2 = [] ++ [] :=
  statelessAutoInitSequence "2024-11-05" "1.0.0"
    { id := some (.num 1), method := some "tools/list", payload := .null }
    { id := some (.str "init_1700_abc"), method := none, payload := .null }
    1700 "abc" [] [] (by decide) (by decide) (by simp)

/-! ## Helper lemmas for the stateful adapter -/

theorem lookup_filter_ne (l : List (String × Nat)) (k : String) :
    (l.filter (fun p => decide (p.1 ≠ k))).lookup k = none := by
  induction l with
  | nil => rfl
  | cons p t ih =>
    obtain ⟨a, b⟩ := p
    by_cases h : a = k
    · simp only [List.filter_cons]
      rw [if_neg (by simp [h])]
      exact ih
    · simp only [List.filter_cons]
      rw [if_pos (by simp [h])]
      simp only [List.lookup]
      rw [show (k == a) = false by simp [Ne.symm h]]
      exact ih

theorem lookup_set_first (l : List (String × Nat)) (k : String) (v : Nat) :
    (((k, v) :: l) : List (String × Nat)).lookup k = some v := by
  simp [List.lookup]

/-- C2: stateful POST admission.  A POST whose non-empty Mcp-Session-Id
header names a session in the table reuses that session's transport and
increments its access count (when the counter exists); a POST with no
header whose body is an initialize request spawns a fresh child and
creates a fresh transport with the UUID-v4 id generator, and the
onsessioninitialized callback registers the transport in the table and
increments the count; every other POST (unknown header, or no header and
non-initialize body) gets the 400 JSON-RPC error with code -32000 and
message "Bad Request: No valid session ID provided" and leaves the state,
in particular the session table, unchanged. -/
theorem statefulPostAdmission (st : StatefulState) (header : Option String)
    (body : JsonRpcMessage) :
    (∀ sid tid, header = some sid → sid ≠ "" →
      st.transports.lookup sid = some tid →
      handleStatefulPost st header body =
        ({ st with counter := st.counter.map (fun c => SessionAccessCounter.inc c sid) }, .reuse tid)) ∧
    (header = none → isInitializeRequest body = true →
      handleStatefulPost st header body =
        ({ st with nextTransportId := st.nextTransportId + 1,
                   childrenSpawned := st.childrenSpawned + 1 },
         .createNew st.nextTransportId .uuidV4)) ∧
    (∀ sid, header = some sid → sid ≠ "" →
      st.transports.lookup sid = none →
      handleStatefulPost st header body = (st, .badRequest 400 badRequestJson)) ∧
    (header = none → isInitializeRequest body = false →
      handleStatefulPost st header body = (st, .badRequest 400 badRequestJson)) ∧
    (∀ nsid tid,
      (onSessionInitialized st nsid tid).transports.lookup nsid = some tid ∧
      (onSessionInitialized st nsid tid).counter =
        st.counter.map (fun c => SessionAccessCounter.inc c nsid)) := by
  refine ⟨?_, ?_, ?_, ?_, ?_⟩
  · intro sid tid h1 h2 h3
    subst h1
    simp [handleStatefulPost, h2, h3]
  · intro h1 h2
    subst h1
    simp [handleStatefulPost, statefulPostNoSession, h2]
  · intro sid h1 h2 h3
    subst h1
    simp [handleStatefulPost, h2, h3]
  · intro h1 h2
    subst h1
    simp [handleStatefulPost, statefulPostNoSession, h2]
  · intro nsid tid
    exact ⟨lookup_set_first _ nsid tid, rfl⟩

/-- Witness for C2 over a table holding session "s1" with transport 7:
reuse for header "s1", creation for an initialize body without header,
400 for unknown header "s9" and for a header-less tools/list body, and
callback registration of session "n1" with transport 3. -/
theorem statefulPostAdmission_witness :
    handleStatefulPost
        { transports := [("s1", 7)],
          counter := some { counts := [("s1", 1)], timers := [] },
          nextTransportId := 3, childrenSpawned := 1 }
        (some "s1")
        { id := none, method := some "tools/list", payload := .null } =
      ({ transports := [("s1", 7)],
         counter := (some { counts := [("s1", 1)], timers := [] }).map
           (fun c => SessionAccessCounter.inc c "s1"),
         nextTransportId := 3, childrenSpawned := 1 }, .reuse 7) ∧
    handleStatefulPost
        { transports := [("s1", 7)],
          counter := some { counts := [("s1", 1)], timers := [] },
          nextTransportId := 3, childrenSpawned := 1 }
        none
        { id := some (.num 0), method := some "initialize", payload := .null } =
      ({ transports := [("s1", 7)],
         counter := some { counts := [("s1", 1)], timers := [] },
         nextTransportId := 4, childrenSpawned := 2 },
       .createNew 3 .uuidV4) ∧
    handleStatefulPost
        { transports := [("s1", 7)],
          counter := some { counts := [("s1", 1)], timers := [] },
          nextTransportId := 3, childrenSpawned := 1 }
        (some "s9")
        { id := some (.num 0), method := some "initialize", payload := .null } =
      ({ transports := [("s1", 7)],
         counter := some { counts := [("s1", 1)], timers := [] },
         nextTransportId := 3, childrenSpawned := 1 },
       .badRequest 400 badRequestJson) ∧
    handleStatefulPost
        { transports := [("s1", 7)],
          counter := some { counts := [("s1", 1)], timers := [] },
          nextTransportId := 3, childrenSpawned := 1 }
        none
        { id := none, method := some "tools/list", payload := .null } =
      ({ transports := [("s1", 7)],
         counter := some { counts := [("s1", 1)], timers := [] },
         nextTransportId := 3, childrenSpawned := 1 },
       .badRequest 400 badRequestJson) ∧
    ((onSessionInitialized
        { transports := [("s1", 7)],
          counter := some { counts := [("s1", 1)], timers := [] },
          nextTransportId := 4, childrenSpawned := 2 }
        "n1" 3).transports.lookup "n1" = some 3 ∧
     (onSessionInitialized
        { transports := [("s1", 7)],
          counter := some { counts := [("s1", 1)], timers := [] },
          nextTransportId := 4, childrenSpawned := 2 }
        "n1" 3).counter =
       (some { counts := [("s1", 1)], timers := [] }).map
         (fun c => SessionAccessCounter.inc c "n1")) := by
  refine ⟨?_, ?_, ?_, ?_, ?_⟩
  · exact (statefulPostAdmission _ (some "s1")
      { id := none, method := some "tools/list", payload := .null }).1
      "s1" 7 rfl (by decide) (by decide)
  · exact (statefulPostAdmission _ none
      { id := some (.num 0), method := some "initialize", payload := .null }).2.1
      rfl (by decide)
  · exact (statefulPostAdmission _ (some "s9")
      { id := some (.num 0), method := some "initialize", payload := .null }).2.2.1
      "s9" rfl (by decide) (by decide)
  · exact (statefulPostAdmission _ none
      { id := none, method := some "tools/list", payload := .null }).2.2.2.1
      rfl (by decide)
  · exact (statefulPostAdmission
      { transports := [("s1", 7)],
        counter := some { counts := [("s1", 1)], timers := [] },
        nextTransportId := 4, childrenSpawned := 2 }
      none { id := none, method := none, payload := .null }).2.2.2.2 "n1" 3

/-- C3: stateful transport close / error cleanup.  When a transport whose
(non-empty) session id is sid reports close or error, the resulting state
has no table entry for sid, the access-counter entry for sid is removed
(no count, no armed timer) while onExpire is not fired, and the child is
killed; so the table never retains an entry whose transport has reported
close or error (a registered transport's session id names its table key,
by onSessionInitialized). -/
theorem statefulTransportCloseCleanup (st : StatefulState) (sid : String)
    (hsid : sid ≠ "") :
    (onStatefulTransportClosed st (some sid)).1.transports.lookup sid = none ∧
    (∀ c, (onStatefulTransportClosed st (some sid)).1.counter = some c →
      c.counts.lookup sid = none ∧ sid ∉ c.timers) ∧
    (onStatefulTransportClosed st (some sid)).2.1 = false ∧
    (onStatefulTransportClosed st (some sid)).2.2 = true := by
  cases hc : st.counter with
  | some c0 =>
    refine ⟨?_, ?_, ?_, ?_⟩
    · simp only [onStatefulTransportClosed, if_neg hsid, hc]
      exact lookup_filter_ne _ _
    · intro c hcc
      simp only [onStatefulTransportClosed, if_neg hsid, hc,
        SessionAccessCounter.clear] at hcc
      obtain rfl := (Option.some.injEq _ _ ▸ hcc.symm)
      constructor
      · exact lookup_filter_ne _ _
      · simp [List.mem_filter]
    · simp [onStatefulTransportClosed, if_neg hsid, hc, SessionAccessCounter.clear]
    · simp [onStatefulTransportClosed, if_neg hsid, hc]
  | none =>
    refine ⟨?_, ?_, ?_, ?_⟩
    · simp only [onStatefulTransportClosed, if_neg hsid, hc]
      exact lookup_filter_ne _ _
    · intro c hcc
      simp [onStatefulTransportClosed, if_neg hsid, hc] at hcc
    · simp [onStatefulTransportClosed, if_neg hsid, hc]
    · simp [onStatefulTransportClosed, if_neg hsid, hc]

/-- Witness for C3: closing the transport of session "x" over a table
holding "x" with transport 5, a count of 0 and an armed timer. -/
theorem statefulTransportCloseCleanup_witness :
    (onStatefulTransportClosed
        { transports := [("x", 5)],
          counter := some { counts := [("x", 0)], timers := ["x"] },
          nextTransportId := 1, childrenSpawned := 1 }
        (some "x")).1.transports.lookup "x" = none ∧
    (∀ c, (onStatefulTransportClosed
        { transports := [("x", 5)],
          counter := some { counts := [("x", 0)], timers := ["x"] },
          nextTransportId := 1, childrenSpawned := 1 }
        (some "x")).1.counter = some c →
      c.counts.lookup "x" = none ∧ "x" ∉ c.timers) ∧
    (onStatefulTransportClosed
        { transports := [("x", 5)],
          counter := some { counts := [("x", 0)], timers := ["x"] },
          nextTransportId := 1, childrenSpawned := 1 }
        (some "x")).2.1 = false ∧
    (onStatefulTransportClosed
        { transports := [("x", 5)],
          counter := some { counts := [("x", 0)], timers := ["x"] },
          nextTransportId := 1, childrenSpawned := 1 }
        (some "x")).2.2 = true :=
  statefulTransportCloseCleanup
    { transports := [("x", 5)],
      counter := some { counts := [("x", 0)], timers := ["x"] },
      nextTransportId := 1, childrenSpawned := 1 }
    "x" (by decide)

/-- Counterexample to C8: a --multiServerConfig invocation selecting the
stateful Streamable-HTTP adapter with --sessionTimeout -5 is not
rejected: main starts the stateful multi gateway, passing -5 through,
instead of exiting with code 1 (the validation exists only in the single
--stdio stateful branch). -/
theorem sessionTimeoutMultiNotRejected :
    mainDispatch
        { stdio := [], sse := none, streamableHttp := none,
          multiServerConfig := some "servers.json",
          outputTransport := some "streamableHttp", stateful := true,
          sessionTimeout := some (-5) }
        (some [{ path := some "/git", stdio := some "run-git-mcp" }]) =
      .runStatefulMulti [{ path := "/git", stdioCmd := "run-git-mcp" }]
        (some (-5)) ∧
    mainDispatch
        { stdio := [], sse := none, streamableHttp := none,
          multiServerConfig := some "servers.json",
          outputTransport := some "streamableHttp", stateful := true,
          sessionTimeout := some (-5) }
        (some [{ path := some "/git", stdio := some "run-git-mcp" }]) ≠
      .exitError := by
  constructor
  · decide
  · decide

/-- C8 as amended: only the single-binding --stdio stateful invocation
validates --sessionTimeout: when the sessionTimeout is non-positive, main
exits with code 1 (the multi-server stateful branches pass the value
through without validation, as the counterexample shows). -/
theorem sessionTimeoutSingleStdioRejected (argv : Argv)
    (cfg : Option (List RawServerEntry)) (t : Int)
    (hsse : optTruthy argv.sse = false)
    (hshttp : optTruthy argv.streamableHttp = false)
    (hcfg : optTruthy argv.multiServerConfig = false)
    (hstdio : argv.stdio ≠ [])
    (hmap : argv.stdio.all (fun v => v.data.contains '=') = false)
    (htrans : argv.outputTransport = some "streamableHttp")
    (hstateful : argv.stateful = true)
    (hst : argv.sessionTimeout = some t) (ht : t ≤ 0) :
    mainDispatch argv cfg = .exitError := by
  cases hl : argv.stdio with
  | nil => exact absurd hl hstdio
  | cons a rest =>
    rw [hl] at hmap
    by_cases ha : a = ""
    · simp [mainDispatch, hl, hsse, hshttp, hcfg, hmap, htrans, hstateful,
        hst, ha]
    · simp [mainDispatch, hl, hsse, hshttp, hcfg, hmap, htrans, hstateful,
        hst, ha, ht]
      intro h1 h2
      exfalso
      have hall : ((a :: rest).all fun v => v.data.contains '=') = true := by
        rw [List.all_cons]
        have ha2 : a.data.contains '=' = true := by simpa using h1
        have hr : rest.all (fun v => v.data.contains '=') = true := by
          rw [List.all_eq_true]
          intro x hx
          simpa using h2 x hx
        rw [ha2, hr]
        rfl
      rw [hall] at hmap
      cases hmap

/-- Witness for the amended C8: a single --stdio stateful invocation with
--sessionTimeout 0 exits with code 1. -/
theorem sessionTimeoutSingleStdioRejected_witness :
    mainDispatch
        { stdio := ["run-mcp"], sse := none, streamableHttp := none,
          multiServerConfig := none,
          outputTransport := some "streamableHttp", stateful := true,
          sessionTimeout := some 0 }
        none = .exitError :=
  sessionTimeoutSingleStdioRejected
    { stdio := ["run-mcp"], sse := none, streamableHttp := none,
      multiServerConfig := none,
      outputTransport := some "streamableHttp", stateful := true,
      sessionTimeout := some 0 }
    none 0 rfl rfl rfl (by decide) (by decide) rfl rfl rfl (by decide)
